import Mathlib

/-!
# Verification of the Black-76 valuation engine and expiry resolver

A shallow embedding, in Lean, of the domain logic of the `black76-api-demo`
repository:

* `src/data_persistence/models.py` — `FinancialOption.get_month_and_year`,
  `FinancialOption.get_last_day_of_month`, `FinancialOption.get_last_business_day`
  (contract-month parsing, commodity month offsets, last-business-day walk-back,
  past-expiry check);
* `src/data_persistence/schemas.py` — `FinancialOptionCreate.validate_fields`
  (creation-time validation);
* `src/pv_service.py` — `PVService.get_time_to_expiry`, `PVService.calculate_pv`,
  `PVService.update_pv_for_single_option`, `PVService.generate_pv_for_options`
  (Black-76 pricing and the valuation batch).

Modelling conventions:

* Python `datetime.date` / `datetime.datetime` values are represented through the
  proleptic-Gregorian ordinal that CPython itself uses internally
  (`date.toordinal()`: day number with 0001-01-01 = 1).  A `datetime` instant is
  an ordinal together with a seconds-of-day component, packed as
  `ordinal * 86400 + seconds`; a midnight `datetime(y, m, d)` is `ordinal * 86400`.
  Date subtraction in days and `weekday()` are defined on ordinals exactly as in
  CPython (`weekday = (ordinal + 6) % 7`, Monday = 0).
* Python floats are modelled as real numbers; `round(x, 2)` is modelled by
  `round2` below.  Both the embedded code and the specification formulas use the
  same `round2`, so the tie-breaking convention does not affect any statement.
* `scipy.stats.norm.cdf` is an external numerical routine; the pricing model is
  parameterised by an arbitrary function `ncdf : ℝ → ℝ` standing for the
  standard normal CDF Φ.  Statements that need a property of Φ (such as the
  symmetry Φ(-x) = 1 - Φ(x)) take it as an explicit hypothesis.
* Strings are ASCII in all relevant inputs; Python `str.casefold` and
  `str.capitalize` coincide with ASCII lowering / capitalisation there.
-/

namespace Black76

/-! ## Calendar arithmetic (CPython `datetime` / `calendar` semantics) -/

/-- Gregorian leap-year test, as used by `calendar.monthrange`. -/
def isLeapYear (y : ℕ) : Bool :=
  y % 4 == 0 && (y % 100 != 0 || y % 400 == 0)

/-- Number of days in a month: `calendar.monthrange(year, month)[1]`.
Months outside 1..12 (never produced by the embedded code) map to 0. -/
def daysInMonth (y m : ℕ) : ℕ :=
  match m with
  | 1 => 31 | 2 => if isLeapYear y then 29 else 28 | 3 => 31
  | 4 => 30 | 5 => 31 | 6 => 30
  | 7 => 31 | 8 => 31 | 9 => 30
  | 10 => 31 | 11 => 30 | 12 => 31
  | _ => 0

/-- Days in year `y` strictly before month `m` (for `m` in 1..12). -/
def daysBeforeMonth (y m : ℕ) : ℕ :=
  let base : ℕ :=
    match m with
    | 1 => 0 | 2 => 31 | 3 => 59 | 4 => 90 | 5 => 120 | 6 => 151
    | 7 => 181 | 8 => 212 | 9 => 243 | 10 => 273 | 11 => 304 | 12 => 334
    | _ => 0
  if 2 < m && isLeapYear y then base + 1 else base

/-- Proleptic-Gregorian ordinal of the date `(y, m, d)`, as CPython's
`date(y, m, d).toordinal()`: 0001-01-01 ↦ 1. -/
def toOrdinal (y m d : ℕ) : ℕ :=
  (365 * (y - 1) + (y - 1) / 4 - (y - 1) / 100) + (y - 1) / 400
    + daysBeforeMonth y m + d

/-- CPython `date.fromordinal(ord).weekday()`: Monday = 0 … Sunday = 6. -/
def weekday (ord : ℕ) : ℕ :=
  (ord + 6) % 7

/-- The walk-back loop of `get_last_business_day`:
`while last_day.weekday() >= 5: last_day -= timedelta(days=1)`.
The loop moves at most two days (from a Sunday through a Saturday to a
Friday), so any fuel ≥ 2 makes the recursion equal to the unbounded loop. -/
def walkBack : ℕ → ℕ → ℕ
  | 0, ord => ord
  | fuel + 1, ord => if 5 ≤ weekday ord then walkBack fuel (ord - 1) else ord

/-! ## Contract-month parsing (`FinancialOption.get_month_and_year`) -/

/-- ASCII model of Python `str.casefold()` (and of `str.lower()`): every
character lower-cased.  On the ASCII inputs relevant here, `casefold`
and `lower` agree. -/
def pyCasefold (s : String) : String :=
  String.mk (s.data.map Char.toLower)

/-- ASCII model of Python `str.upper()`: every character upper-cased. -/
def pyUpper (s : String) : String :=
  String.mk (s.data.map Char.toUpper)

/-- ASCII model of Python `str.capitalize()`: first character upper-cased,
the rest lower-cased. -/
def pyCapitalize (s : String) : String :=
  match s.data with
  | [] => ""
  | c :: cs => String.mk (c.toUpper :: cs.map Char.toLower)

/-- The fixed `months` dictionary of `get_month_and_year` (Jan..Dec → 1..12);
`none` models the `KeyError` on a missing key. -/
def monthsTable (s : String) : Option ℕ :=
  if s = "Jan" then some 1 else if s = "Feb" then some 2
  else if s = "Mar" then some 3 else if s = "Apr" then some 4
  else if s = "May" then some 5 else if s = "Jun" then some 6
  else if s = "Jul" then some 7 else if s = "Aug" then some 8
  else if s = "Sep" then some 9 else if s = "Oct" then some 10
  else if s = "Nov" then some 11 else if s = "Dec" then some 12
  else none

/-- ASCII whitespace, as stripped by Python `int()` around a numeral. -/
def isPySpace (c : Char) : Bool :=
  c = ' ' || c = '\t' || c = '\n' || c = '\x0d' || c = '\x0b' || c = '\x0c'

/-- Model of CPython `int("20" + s)` for the suffix `s = date_str[-2:]`
(at most two characters).  CPython accepts, besides plain digits:
an underscore *between* digits (`int("20_4") = 204`), and trailing
whitespace (`int("204 ") = 204`, `int("20  ") = 20`).  A trailing
underscore, an interior space, or any other character is a `ValueError`
(`none`).  Restricted to ASCII digits/whitespace. -/
def pyIntOf20Suffix : List Char → Option ℕ
  | [] => some 20
  | [c] =>
      if c.isDigit then some (200 + (c.toNat - 48))
      else if isPySpace c then some 20
      else none
  | [c₁, c₂] =>
      if c₁.isDigit && c₂.isDigit then
        some (2000 + 10 * (c₁.toNat - 48) + (c₂.toNat - 48))
      else if c₁ = '_' && c₂.isDigit then
        some (200 + (c₂.toNat - 48))
      else if c₁.isDigit && isPySpace c₂ then
        some (200 + (c₁.toNat - 48))
      else if isPySpace c₁ && isPySpace c₂ then
        some 20
      else none
  | _ => none

/-- Python `date_str[-2:]`: the last `min 2 (length)` characters. -/
def lastTwo (cs : List Char) : List Char :=
  cs.drop (cs.length - 2)

/-- `FinancialOption.get_month_and_year(date_str)`: month from the first three
characters via `capitalize()` and the `months` table, year as
`int("20" + date_str[-2:])`.  `none` models the uncaught `KeyError`
(unknown month) or `ValueError` (unparseable year). -/
def get_month_and_year (dateStr : String) : Option (ℕ × ℕ) :=
  match monthsTable (pyCapitalize (String.mk (dateStr.data.take 3))) with
  | none => none
  | some month =>
      match pyIntOf20Suffix (lastTwo dateStr.data) with
      | none => none
      | some year => some (month, year)

/-! ## Expiry resolution (`FinancialOption.get_last_business_day`) -/

/-- The typed errors of the expiry resolver (§7 of the specification):
`invalidCommodity` for the `"Invalid commodity."` `ValueError`,
`malformedContractMonth` for the parse failure of `get_month_and_year`,
`pastExpiry` for the `"Expiry date should be earlier than today."`
`ValueError`. -/
inductive ExpiryError
  | invalidCommodity
  | malformedContractMonth
  | pastExpiry
deriving DecidableEq, Repr

/-- Commodity month offset applied by `get_last_business_day`:
`month -= 2` for BRN, `month -= 1` for HH, with
`if month < 1: year -= 1; month += 12`.  `none` models the
`"Invalid commodity."` `ValueError` of the final `else`. -/
def applyCommodityOffset (commodity : String) (month year : ℕ) :
    Option (ℕ × ℕ) :=
  if commodity = "BRN" then
    if (month : ℤ) - 2 < 1 then some (((month : ℤ) - 2 + 12).toNat, year - 1)
    else some (((month : ℤ) - 2).toNat, year)
  else if commodity = "HH" then
    if (month : ℤ) - 1 < 1 then some (((month : ℤ) - 1 + 12).toNat, year - 1)
    else some (((month : ℤ) - 1).toNat, year)
  else none

/-- Ordinal of the last business day of month `(y, m)`: the last calendar day,
stepped backward past Saturdays and Sundays. -/
def lastBusinessOrd (y m : ℕ) : ℕ :=
  walkBack 7 (toOrdinal y m (daysInMonth y m))

/-- `FinancialOption.get_last_business_day(commodity, value, now)` as the
operation `resolveExpiry` of the specification.  `nowTicks` is the
`datetime.now()` instant, packed as `ordinal * 86400 + secondsOfDay`;
the result is the ordinal of the stamped expiration date.  The
comparison `last_day <= datetime.now()` compares the midnight instant
`last_day` with `now`. -/
def resolveExpiry (commodity contractMonth : String) (nowTicks : ℕ) :
    Except ExpiryError ℕ :=
  match get_month_and_year contractMonth with
  | none => .error .malformedContractMonth
  | some (month, year) =>
      match applyCommodityOffset commodity month year with
      | none => .error .invalidCommodity
      | some (m', y') =>
          let lbd := lastBusinessOrd y' m'
          if lbd * 86400 ≤ nowTicks then .error .pastExpiry
          else .ok lbd

/-! ## Creation-time validation (`FinancialOptionCreate.validate_fields`) -/

/-- The request body of a contract creation (`schemas.FinancialOptionBase`). -/
structure CreateRequest where
  commodity : String
  expires_on : String
  strike_price : ℝ
  option_type : String
  unit_of_measure : String

/-- A creation failure: `schemaRejected` for a `ValueError` raised by
`FinancialOptionCreate.validate_fields`, `expiry e` for one raised while the
model's `expires_on` validator runs. -/
inductive CreateError
  | schemaRejected
  | expiry (e : ExpiryError)

/-- `FinancialOptionCreate.validate_fields`: commodity must upper-case into
`{"BRN", "HH"}`, option type into `{"CALL", "PUT"}`, and the strike must not
be `< 0`. -/
noncomputable def validate_fields (v : CreateRequest) : Except CreateError CreateRequest :=
  if pyUpper v.commodity ≠ "BRN" ∧ pyUpper v.commodity ≠ "HH" then
    .error .schemaRejected
  else if pyUpper v.option_type ≠ "CALL" ∧ pyUpper v.option_type ≠ "PUT" then
    .error .schemaRejected
  else if v.strike_price < 0 then
    .error .schemaRejected
  else
    .ok v

/-- A stored `FinancialOption` row: the request fields plus the expiration
date stamped (as an ordinal) by the `expires_on` validator. -/
structure StoredOption where
  commodity : String
  expires_on : String
  strike_price : ℝ
  option_type : String
  unit_of_measure : String
  expiration_date : ℕ

/-- The creation pipeline of `POST /market_options`: pydantic validation
(`FinancialOptionCreate.validate_fields`), then construction of the
`models.FinancialOption` row, whose `@validates("expires_on")` hook runs
`get_last_business_day` and stamps `expiration_date`; any raised error
aborts before the record is stored. -/
noncomputable def create_option (nowTicks : ℕ) (v : CreateRequest) :
    Except CreateError StoredOption :=
  match validate_fields v with
  | .error e => .error e
  | .ok v' =>
      match resolveExpiry v'.commodity v'.expires_on nowTicks with
      | .error e => .error (.expiry e)
      | .ok d =>
          .ok ⟨v'.commodity, v'.expires_on, v'.strike_price, v'.option_type,
               v'.unit_of_measure, d⟩

end Black76

namespace Black76

/-! ## The pricing engine (`PVService`) -/

/-- `round(x, 2)` on the real model of Python floats: round to the nearest
multiple of 1/100.  Both the embedded code and every specification formula
use this same function, so the half-way tie-breaking convention is
immaterial to all statements below. -/
noncomputable def round2 (x : ℝ) : ℝ :=
  (round (100 * x) : ℤ) / 100

/-- `PVService.get_time_to_expiry`, with the ambient `dt.date.today()` made
an explicit parameter: `(expiry_date - today).days / 365`, rounded to two
decimals.  Dates are ordinals; CPython date subtraction `.days` is the
ordinal difference. -/
noncomputable def get_time_to_expiry (expiry_date today : ℕ) : ℝ :=
  round2 (((expiry_date : ℤ) - (today : ℤ) : ℤ) / 365)

/-- Outcome of the `option_type` dispatch in `calculate_pv`:
`if …casefold() == "put"` / `elif …casefold() == "call"`.  Python
`str.casefold` coincides with ASCII lowering on the relevant inputs. -/
inductive OptionKind
  | put
  | call
deriving DecidableEq, Repr

/-- The `casefold()` comparison chain of `calculate_pv`; `none` is the
`else: raise ValueError("Unknown option type.")` branch. -/
def parse_option_type (s : String) : Option OptionKind :=
  if pyCasefold s = "put" then some .put
  else if pyCasefold s = "call" then some .call
  else none

/-- The typed error of the pricing engine: `unknownOptionType` for the
`ValueError("Unknown option type.")`. -/
inductive PVError
  | unknownOptionType
deriving DecidableEq, Repr

/-- The keyword inputs of `PVService.calculate_pv`
(`pv_calculation_inputs`), with the expiration date as an ordinal. -/
structure PVInputs where
  expiration_date : ℕ
  strike_price : ℝ
  option_type : String
  interest_rate : ℝ
  volatility : ℝ
  spot_price : ℝ

/-- The local `time_to_expiry` of `calculate_pv`:
`PVService.get_time_to_expiry(pv_calculation_inputs["expiration_date"])`. -/
noncomputable def time_T (today : ℕ) (inp : PVInputs) : ℝ :=
  get_time_to_expiry inp.expiration_date today

/-- The local `d1_calc` of `calculate_pv`:
`(ln(spot/strike) + (rate + vol²/2)·T) / (vol·√T)`. -/
noncomputable def d1_calc (today : ℕ) (inp : PVInputs) : ℝ :=
  (Real.log (inp.spot_price / inp.strike_price)
      + (inp.interest_rate + inp.volatility ^ 2 / 2) * time_T today inp)
    / (inp.volatility * Real.sqrt (time_T today inp))

/-- The local `d2_calc` of `calculate_pv`: `d1 − vol·√T`. -/
noncomputable def d2_calc (today : ℕ) (inp : PVInputs) : ℝ :=
  d1_calc today inp - inp.volatility * Real.sqrt (time_T today inp)

/-- `PVService.calculate_pv`, parameterised by `ncdf` (the external
`scipy.stats.norm.cdf`, the standard normal CDF Φ) and by `today`
(the ambient `dt.date.today()` read inside `get_time_to_expiry`):

* `T = get_time_to_expiry(expiration_date)`;
* `d1 = (ln(spot/strike) + (rate + vol²/2)·T) / (vol·√T)`, `d2 = d1 − vol·√T`;
* PUT: `round(strike·e^(−rate·T)·Φ(−d2) − spot·Φ(−d1), 2)`;
* CALL: `round(spot·Φ(d1) − strike·e^(−rate·T)·Φ(d2), 2)`;
* otherwise the `ValueError` modelled by `.error .unknownOptionType`. -/
noncomputable def calculate_pv (ncdf : ℝ → ℝ) (today : ℕ) (inp : PVInputs) :
    Except PVError ℝ :=
  match parse_option_type inp.option_type with
  | some .put =>
      .ok (round2 (inp.strike_price
        * Real.exp (-inp.interest_rate * time_T today inp)
        * ncdf (-(d2_calc today inp))
        - inp.spot_price * ncdf (-(d1_calc today inp))))
  | some .call =>
      .ok (round2 (inp.spot_price * ncdf (d1_calc today inp)
        - inp.strike_price
          * Real.exp (-inp.interest_rate * time_T today inp)
          * ncdf (d2_calc today inp)))
  | none => .error .unknownOptionType

/-! ## The valuation batch (`generate_pv_for_options`) -/

/-- `schemas.FinancialOptionPresentValue`: the presentation fields of an
option record together with the market parameters and the computed `pv`
(the latter four defaulting to 0.0). -/
structure OptionPV where
  id : String
  commodity : String
  expires_on : String
  strike_price : ℝ
  option_type : String
  unit_of_measure : String
  expiration_date : ℕ
  interest_rate : ℝ := 0
  volatility : ℝ := 0
  spot_price : ℝ := 0
  pv : ℝ := 0

/-- A stored record as fetched for valuation (`OptionContractView`). -/
structure OptionRecord where
  id : String
  commodity : String
  expires_on : String
  strike_price : ℝ
  option_type : String
  unit_of_measure : String
  expiration_date : ℕ

/-- `schemas.FinancialOptionPresentValue.from_orm`: serialise a stored row,
leaving the market-parameter and `pv` fields at their 0.0 defaults. -/
def from_orm (o : OptionRecord) : OptionPV :=
  { id := o.id, commodity := o.commodity, expires_on := o.expires_on,
    strike_price := o.strike_price, option_type := o.option_type,
    unit_of_measure := o.unit_of_measure,
    expiration_date := o.expiration_date }

/-- `PVService.update_pv_for_single_option`: price the option from its
`expiration_date`/`strike_price`/`option_type` and the three market
parameters, then set `volatility`, `interest_rate`, `spot_price` and `pv`
on the record.  A pricing `ValueError` propagates. -/
noncomputable def update_pv_for_single_option (ncdf : ℝ → ℝ) (today : ℕ)
    (option : OptionPV) (interest_rate volatility spot_price : ℝ) :
    Except PVError OptionPV :=
  match calculate_pv ncdf today
      { expiration_date := option.expiration_date,
        strike_price := option.strike_price,
        option_type := option.option_type,
        interest_rate := interest_rate,
        volatility := volatility,
        spot_price := spot_price } with
  | .error e => .error e
  | .ok present_value =>
      .ok { option with volatility := volatility,
                        interest_rate := interest_rate,
                        spot_price := spot_price,
                        pv := present_value }

/-- `PVService.generate_pv_for_options`: serialise every record with
`from_orm`, then price them in order, appending each result; the first
pricing exception aborts the whole batch (no per-record isolation). -/
noncomputable def generate_pv_for_options (ncdf : ℝ → ℝ) (today : ℕ)
    (options_list : List OptionRecord)
    (interest_rate volatility spot_price : ℝ) :
    Except PVError (List OptionPV) :=
  (options_list.map from_orm).mapM
    (fun option =>
      update_pv_for_single_option ncdf today option
        interest_rate volatility spot_price)

end Black76

namespace Black76

/-! ## Auxiliary lemmas -/

theorem walkBack_seven (ord : ℕ) :
    walkBack 7 ord = if 5 ≤ weekday ord then walkBack 6 (ord - 1) else ord :=
  rfl

theorem walkBack_six (ord : ℕ) :
    walkBack 6 ord = if 5 ≤ weekday ord then walkBack 5 (ord - 1) else ord :=
  rfl

theorem walkBack_five (ord : ℕ) :
    walkBack 5 ord = if 5 ≤ weekday ord then walkBack 4 (ord - 1) else ord :=
  rfl

/-- The walk-back loop lands on a weekday: at most two backward steps are
needed (Sunday → Saturday → Friday), so fuel 7 always suffices. -/
theorem weekday_walkBack_lt (ord : ℕ) (h : 2 ≤ ord) :
    weekday (walkBack 7 ord) < 5 := by
  by_cases c1 : 5 ≤ weekday ord
  · by_cases c2 : 5 ≤ weekday (ord - 1)
    · have e2 : weekday (ord - 1 - 1) = 4 := by
        unfold weekday at *; omega
      rw [walkBack_seven, if_pos c1, walkBack_six, if_pos c2,
        walkBack_five, if_neg (by omega)]
      omega
    · rw [walkBack_seven, if_pos c1, walkBack_six, if_neg c2]
      unfold weekday at *; omega
  · rw [walkBack_seven, if_neg c1]
    omega

theorem two_le_toOrdinal (y m d : ℕ) (hy : 2 ≤ y) : 2 ≤ toOrdinal y m d := by
  unfold toOrdinal
  have h4 : (y - 1) / 100 ≤ y - 1 := Nat.div_le_self _ _
  omega

set_option maxHeartbeats 1000000 in
theorem monthsTable_bounds {s : String} {m : ℕ} (h : monthsTable s = some m) :
    1 ≤ m ∧ m ≤ 12 := by
  rw [monthsTable] at h
  repeat' split at h
  all_goals first
    | (injection h with h; omega)
    | exact Option.noConfusion h

theorem pyIntOf20Suffix_lb : ∀ {cs : List Char} {y : ℕ},
    pyIntOf20Suffix cs = some y → 20 ≤ y
  | [], y, h => by injection h with h; omega
  | [c], y, h => by
      simp only [pyIntOf20Suffix] at h
      split_ifs at h <;> (injection h with h; omega)
  | [c₁, c₂], y, h => by
      simp only [pyIntOf20Suffix] at h
      split_ifs at h <;> (injection h with h; omega)
  | c₁ :: c₂ :: c₃ :: cs, y, h => by
      exact Option.noConfusion h

theorem get_month_and_year_bounds {s : String} {m y : ℕ}
    (h : get_month_and_year s = some (m, y)) : 1 ≤ m ∧ m ≤ 12 ∧ 20 ≤ y := by
  unfold get_month_and_year at h
  rcases hmt : monthsTable (pyCapitalize (String.mk (s.data.take 3))) with
    _ | mm <;> rw [hmt] at h
  · exact Option.noConfusion h
  · rcases hyr : pyIntOf20Suffix (lastTwo s.data) with _ | yy <;>
      rw [hyr] at h
    · exact Option.noConfusion h
    · simp only [Option.some.injEq, Prod.mk.injEq] at h
      obtain ⟨rfl, rfl⟩ := h
      have h1 := monthsTable_bounds hmt
      have h2 := pyIntOf20Suffix_lb hyr
      omega

theorem applyCommodityOffset_bounds {c : String} {m y m' y' : ℕ}
    (hm1 : 1 ≤ m) (hy : 20 ≤ y)
    (h : applyCommodityOffset c m y = some (m', y')) : 2 ≤ y' := by
  unfold applyCommodityOffset at h
  split_ifs at h <;>
    (simp only [Option.some.injEq, Prod.mk.injEq] at h; omega)

theorem applyCommodityOffset_isSome {c : String} (m y : ℕ)
    (hc : c = "BRN" ∨ c = "HH") :
    ∃ m' y', applyCommodityOffset c m y = some (m', y') := by
  rcases hc with rfl | rfl
  · unfold applyCommodityOffset
    rw [if_pos rfl]
    split_ifs <;> exact ⟨_, _, rfl⟩
  · unfold applyCommodityOffset
    rw [if_neg (by decide), if_pos rfl]
    split_ifs <;> exact ⟨_, _, rfl⟩

theorem resolveExpiry_parse_none {c code : String} {now : ℕ}
    (hp : get_month_and_year code = none) :
    resolveExpiry c code now = .error .malformedContractMonth := by
  unfold resolveExpiry
  simp only [hp]

theorem resolveExpiry_offset_none {c code : String} {now m y : ℕ}
    (hp : get_month_and_year code = some (m, y))
    (ho : applyCommodityOffset c m y = none) :
    resolveExpiry c code now = .error .invalidCommodity := by
  unfold resolveExpiry
  simp only [hp, ho]

theorem resolveExpiry_eval {c code : String} {now m y m' y' : ℕ}
    (hp : get_month_and_year code = some (m, y))
    (ho : applyCommodityOffset c m y = some (m', y')) :
    resolveExpiry c code now =
      if lastBusinessOrd y' m' * 86400 ≤ now then .error .pastExpiry
      else .ok (lastBusinessOrd y' m') := by
  unfold resolveExpiry
  simp only [hp, ho]

theorem resolveExpiry_ok_inv {c code : String} {now d : ℕ}
    (h : resolveExpiry c code now = .ok d) :
    ∃ m y m' y', get_month_and_year code = some (m, y) ∧
      applyCommodityOffset c m y = some (m', y') ∧
      d = lastBusinessOrd y' m' ∧ now < lastBusinessOrd y' m' * 86400 := by
  rcases hp : get_month_and_year code with _ | ⟨m, y⟩
  · rw [resolveExpiry_parse_none hp] at h
    exact Except.noConfusion h
  · rcases ho : applyCommodityOffset c m y with _ | ⟨m', y'⟩
    · rw [resolveExpiry_offset_none hp ho] at h
      exact Except.noConfusion h
    · rw [resolveExpiry_eval hp ho] at h
      split_ifs at h with hle
      injection h with h
      exact ⟨m, y, m', y', rfl, ho, h.symm, by omega⟩

theorem validate_fields_ok_eq {x v : CreateRequest}
    (h : validate_fields x = .ok v) : v = x := by
  unfold validate_fields at h
  split_ifs at h <;>
    first
      | exact Except.noConfusion h
      | (injection h with h; exact h.symm)

end Black76

namespace Black76

/-! ## The claims -/

/-- **C2.** For every commodity and well-formed contract-month code, a
successfully resolved expiry is the last day of the offset month stepped
backward past any Saturday or Sunday — hence its weekday is Mon..Fri —
and resolving commodity BRN with code Jan24 (against `now` = 2023-11-01)
yields 2023-11-30.  (A successful `resolveExpiry` forces the commodity
into {BRN, HH}: any other commodity errors, so the first conjunct covers
exactly the claimed domain.) -/
theorem c2_resolveExpiry_weekend_free :
    (∀ (commodity code : String) (now d : ℕ),
        resolveExpiry commodity code now = .ok d →
          (∃ m y m' y',
              get_month_and_year code = some (m, y) ∧
              applyCommodityOffset commodity m y = some (m', y') ∧
              d = walkBack 7 (toOrdinal y' m' (daysInMonth y' m'))) ∧
          weekday d < 5)
    ∧ resolveExpiry "BRN" "Jan24" (toOrdinal 2023 11 1 * 86400)
        = .ok (toOrdinal 2023 11 30) := by
  constructor
  · intro commodity code now d h
    obtain ⟨m, y, m', y', hp, ho, hd, -⟩ := resolveExpiry_ok_inv h
    obtain ⟨hm1, hm2, hy⟩ := get_month_and_year_bounds hp
    have hy' : 2 ≤ y' := applyCommodityOffset_bounds hm1 hy ho
    constructor
    · exact ⟨m, y, m', y', hp, ho, hd⟩
    · rw [hd]
      exact weekday_walkBack_lt _ (two_le_toOrdinal _ _ _ hy')
  · rfl

/-- Witness for C2: the concrete resolution of BRN/Jan24 instantiates the
universally quantified conjunct, and 2023-11-30 is a Thursday. -/
theorem c2_resolveExpiry_weekend_free_witness :
    weekday (toOrdinal 2023 11 30) < 5 :=
  (c2_resolveExpiry_weekend_free.1 "BRN" "Jan24"
      (toOrdinal 2023 11 1 * 86400) (toOrdinal 2023 11 30)
      c2_resolveExpiry_weekend_free.2).2

/-- **C5.** For a commodity in {BRN, HH} and a parseable contract-month
code, `resolveExpiry` fails with `PastExpiry` exactly when the computed
last business day (as a midnight instant) is ≤ `now`; otherwise it
succeeds and returns exactly that last business day — so a returned
date is always strictly after `now`. -/
theorem c5_resolveExpiry_pastExpiry_iff (c code : String) (now m y : ℕ)
    (hc : c = "BRN" ∨ c = "HH")
    (hparse : get_month_and_year code = some (m, y)) :
    ∃ m' y', applyCommodityOffset c m y = some (m', y') ∧
      (resolveExpiry c code now = .error .pastExpiry ↔
        lastBusinessOrd y' m' * 86400 ≤ now) ∧
      (now < lastBusinessOrd y' m' * 86400 →
        resolveExpiry c code now = .ok (lastBusinessOrd y' m')) ∧
      ∀ d, resolveExpiry c code now = .ok d →
        d = lastBusinessOrd y' m' ∧ now < d * 86400 := by
  obtain ⟨m', y', ho⟩ := applyCommodityOffset_isSome m y hc
  refine ⟨m', y', ho, ?_, ?_, ?_⟩
  · rw [resolveExpiry_eval hparse ho]
    split_ifs with hle
    · simp [hle]
    · constructor
      · intro h
        exact h.elim
      · intro h
        exact absurd h hle
  · intro hfut
    rw [resolveExpiry_eval hparse ho, if_neg (by omega)]
  · intro d h
    rw [resolveExpiry_eval hparse ho] at h
    split_ifs at h with hle
    injection h with h
    exact ⟨h.symm, by omega⟩

/-- Witness for C5: BRN/Jan20 resolves to the last business day of
November 2019 (2019-11-29), which is ≤ a `now` inside 2024, so the
resolution fails with `PastExpiry`. -/
theorem c5_resolveExpiry_pastExpiry_iff_witness :
    ∃ m' y', applyCommodityOffset "BRN" 1 2020 = some (m', y') ∧
      (resolveExpiry "BRN" "Jan20" (toOrdinal 2024 6 1 * 86400 + 3600)
          = .error .pastExpiry ↔
        lastBusinessOrd y' m' * 86400 ≤ toOrdinal 2024 6 1 * 86400 + 3600) ∧
      (toOrdinal 2024 6 1 * 86400 + 3600 < lastBusinessOrd y' m' * 86400 →
        resolveExpiry "BRN" "Jan20" (toOrdinal 2024 6 1 * 86400 + 3600)
          = .ok (lastBusinessOrd y' m')) ∧
      ∀ d, resolveExpiry "BRN" "Jan20" (toOrdinal 2024 6 1 * 86400 + 3600)
          = .ok d →
        d = lastBusinessOrd y' m' ∧
          toOrdinal 2024 6 1 * 86400 + 3600 < d * 86400 :=
  c5_resolveExpiry_pastExpiry_iff "BRN" "Jan20"
    (toOrdinal 2024 6 1 * 86400 + 3600) 1 2020 (Or.inl rfl) rfl

/-- **C9.** For any commodity outside the exact set {BRN, HH} (with a
parseable contract month), `resolveExpiry` fails with `InvalidCommodity`,
and the creation pipeline (pydantic schema validation followed by the
model's `expires_on` validator) never produces a stored record for such
a commodity. -/
theorem c9_invalid_commodity (c code : String) (now m y : ℕ)
    (h1 : c ≠ "BRN") (h2 : c ≠ "HH")
    (hparse : get_month_and_year code = some (m, y)) :
    resolveExpiry c code now = .error .invalidCommodity ∧
    ∀ (strike : ℝ) (ot uom : String) (nowT : ℕ) (st : StoredOption),
      create_option nowT ⟨c, code, strike, ot, uom⟩ ≠ .ok st := by
  have ho : applyCommodityOffset c m y = none := by
    unfold applyCommodityOffset
    rw [if_neg h1, if_neg h2]
  refine ⟨resolveExpiry_offset_none hparse ho, ?_⟩
  intro strike ot uom nowT st hok
  unfold create_option at hok
  rcases hv : validate_fields ⟨c, code, strike, ot, uom⟩ with e | v
  · rw [hv] at hok
    exact Except.noConfusion hok
  · have hvx := validate_fields_ok_eq hv
    subst hvx
    rw [hv] at hok
    dsimp only at hok
    rw [resolveExpiry_offset_none hparse ho] at hok
    exact Except.noConfusion hok

/-- Witness for C9: commodity "GAS" is rejected both by the resolver and
by the creation pipeline. -/
theorem c9_invalid_commodity_witness :
    resolveExpiry "GAS" "Jan24" 0 = .error .invalidCommodity ∧
    ∀ (strike : ℝ) (ot uom : String) (nowT : ℕ) (st : StoredOption),
      create_option nowT ⟨"GAS", "Jan24", strike, ot, uom⟩ ≠ .ok st :=
  c9_invalid_commodity "GAS" "Jan24" 0 1 2024 (by decide) (by decide) rfl

/-- **Counterexample to C6 as stated.**  The contract month `"Jan_4"` has
last two characters `'_'` and `'4'` — not two digits — yet the resolver
does *not* fail with `MalformedContractMonth`: CPython's
`int("20" + "_4")` accepts the underscore between the digits and yields
the year 204, so the resolution proceeds and (against a 2024 `now`)
fails with `PastExpiry` instead. -/
theorem c6_counterexample :
    resolveExpiry "BRN" "Jan_4" (toOrdinal 2024 1 2 * 86400)
        = .error .pastExpiry ∧
    '_'.isDigit = false ∧
    resolveExpiry "BRN" "Jan_4" (toOrdinal 2024 1 2 * 86400)
        ≠ .error .malformedContractMonth := by
  have e1 : resolveExpiry "BRN" "Jan_4" (toOrdinal 2024 1 2 * 86400)
      = .error .pastExpiry := rfl
  refine ⟨e1, rfl, fun h => ?_⟩
  rw [e1] at h
  injection h with h
  exact ExpiryError.noConfusion h

/-- **C6 (amended).**  With the month table compared after `capitalize()`:
a contract month whose first three characters are not a month name fails
with `MalformedContractMonth`; one whose last two characters are not
accepted by CPython's `int("20" + suffix)` — two digits, or an
underscore followed by a digit, or a digit followed by whitespace, or
two whitespace characters — fails with `MalformedContractMonth`; and a
well-formed code (month name plus two digits `d₁d₂`) parses to the table
month and the year `2000 + d₁d₂`. -/
theorem c6_amended_parse :
    (∀ (c code : String) (now : ℕ),
        monthsTable (pyCapitalize (String.mk (code.data.take 3))) = none →
        resolveExpiry c code now = .error .malformedContractMonth)
    ∧ (∀ (c code : String) (now : ℕ) (c₁ c₂ : Char),
        lastTwo code.data = [c₁, c₂] →
        ¬(c₁.isDigit ∧ c₂.isDigit) →
        ¬(c₁ = '_' ∧ c₂.isDigit) →
        ¬(c₁.isDigit ∧ isPySpace c₂) →
        ¬(isPySpace c₁ ∧ isPySpace c₂) →
        resolveExpiry c code now = .error .malformedContractMonth)
    ∧ (∀ (code : String) (mo : ℕ) (c₁ c₂ : Char),
        monthsTable (pyCapitalize (String.mk (code.data.take 3))) = some mo →
        lastTwo code.data = [c₁, c₂] →
        c₁.isDigit → c₂.isDigit →
        get_month_and_year code
          = some (mo, 2000 + 10 * (c₁.toNat - 48) + (c₂.toNat - 48))) := by
  refine ⟨?_, ?_, ?_⟩
  · intro c code now hmt
    apply resolveExpiry_parse_none
    unfold get_month_and_year
    simp only [hmt]
  · intro c code now c₁ c₂ hlast hn1 hn2 hn3 hn4
    apply resolveExpiry_parse_none
    have hpy : pyIntOf20Suffix [c₁, c₂] = none := by
      simp only [pyIntOf20Suffix]
      split_ifs with h1 h2 h3 h4
      · exact absurd (Bool.and_eq_true .. ▸ h1) (by simpa using hn1)
      · refine absurd ?_ hn2
        have := Bool.and_eq_true .. ▸ h2
        exact ⟨by simpa using this.1, this.2⟩
      · exact absurd (Bool.and_eq_true .. ▸ h3) (by simpa using hn3)
      · exact absurd (Bool.and_eq_true .. ▸ h4) (by simpa using hn4)
      · rfl
    unfold get_month_and_year
    rcases hmt : monthsTable (pyCapitalize (String.mk (code.data.take 3)))
      with _ | mm
    · simp only [hmt]
    · simp only [hmt, hlast, hpy]
  · intro code mo c₁ c₂ hmt hlast hd1 hd2
    unfold get_month_and_year
    have hpy : pyIntOf20Suffix [c₁, c₂]
        = some (2000 + 10 * (c₁.toNat - 48) + (c₂.toNat - 48)) := by
      simp only [pyIntOf20Suffix]
      rw [if_pos (by simp [hd1, hd2])]
    simp only [hmt, hlast, hpy]

/-- Witness for C6 (amended): an unknown month name fails, a non-integer
year suffix fails, and the well-formed "Jan24" parses to (1, 2024). -/
theorem c6_amended_parse_witness :
    resolveExpiry "BRN" "Xyz24" 0 = .error .malformedContractMonth ∧
    resolveExpiry "BRN" "Jan2x" 0 = .error .malformedContractMonth ∧
    get_month_and_year "Jan24" = some (1, 2024) :=
  ⟨c6_amended_parse.1 "BRN" "Xyz24" 0 rfl,
   c6_amended_parse.2.1 "BRN" "Jan2x" 0 '2' 'x' rfl (by decide) (by decide)
     (by decide) (by decide),
   c6_amended_parse.2.2 "Jan24" 1 '2' '4' rfl rfl (by decide) (by decide)⟩

end Black76

namespace Black76

/-! ### Pricing-engine lemmas -/

theorem parse_option_type_put {s : String} (h : pyCasefold s = "put") :
    parse_option_type s = some .put := by
  unfold parse_option_type
  rw [if_pos h]

theorem parse_option_type_call {s : String} (h : pyCasefold s = "call") :
    parse_option_type s = some .call := by
  unfold parse_option_type
  rw [if_neg (h ▸ by decide), if_pos h]

theorem parse_option_type_none {s : String}
    (h1 : pyCasefold s ≠ "put") (h2 : pyCasefold s ≠ "call") :
    parse_option_type s = none := by
  unfold parse_option_type
  rw [if_neg h1, if_neg h2]

theorem calculate_pv_call {ncdf : ℝ → ℝ} {today : ℕ} {inp : PVInputs}
    (h : pyCasefold inp.option_type = "call") :
    calculate_pv ncdf today inp
      = .ok (round2 (inp.spot_price * ncdf (d1_calc today inp)
          - inp.strike_price
            * Real.exp (-inp.interest_rate * time_T today inp)
            * ncdf (d2_calc today inp))) := by
  unfold calculate_pv
  rw [parse_option_type_call h]

theorem calculate_pv_put {ncdf : ℝ → ℝ} {today : ℕ} {inp : PVInputs}
    (h : pyCasefold inp.option_type = "put") :
    calculate_pv ncdf today inp
      = .ok (round2 (inp.strike_price
          * Real.exp (-inp.interest_rate * time_T today inp)
          * ncdf (-(d2_calc today inp))
          - inp.spot_price * ncdf (-(d1_calc today inp)))) := by
  unfold calculate_pv
  rw [parse_option_type_put h]

theorem calculate_pv_error {ncdf : ℝ → ℝ} {today : ℕ} {inp : PVInputs}
    (h1 : pyCasefold inp.option_type ≠ "put")
    (h2 : pyCasefold inp.option_type ≠ "call") :
    calculate_pv ncdf today inp = .error .unknownOptionType := by
  unfold calculate_pv
  rw [parse_option_type_none h1 h2]

/-- Rounding to two decimals moves a value by at most 1/200. -/
theorem abs_round2_sub (x : ℝ) : |round2 x - x| ≤ 1 / 200 := by
  unfold round2
  have h := abs_sub_round (100 * x)
  rw [abs_sub_comm] at h
  rw [show ((round (100 * x) : ℤ) : ℝ) / 100 - x
        = (((round (100 * x) : ℤ) : ℝ) - 100 * x) / 100 by ring,
    abs_div, show |(100 : ℝ)| = 100 by norm_num]
  linarith

end Black76

namespace Black76

/-- **C1.** For positive strike, spot and volatility and positive
time-to-expiry `T = round((expirationDate − today).days / 365, 2)`,
`priceOption` returns `round(spot·Φ(d1) − strike·e^(−rate·T)·Φ(d2), 2)`
for a CALL (any casing) and
`round(strike·e^(−rate·T)·Φ(−d2) − spot·Φ(−d1), 2)` for a PUT
(any casing), with
`d1 = (ln(spot/strike) + (rate + vol²/2)·T)/(vol·√T)` and
`d2 = d1 − vol·√T`. -/
theorem c1_black76_formula (ncdf : ℝ → ℝ) (today : ℕ) (inp : PVInputs)
    (T d1 d2 : ℝ)
    (hT : T = round2 ((((inp.expiration_date : ℤ) - (today : ℤ) : ℤ) : ℝ)
      / 365))
    (hd1 : d1 = (Real.log (inp.spot_price / inp.strike_price)
        + (inp.interest_rate + inp.volatility ^ 2 / 2) * T)
      / (inp.volatility * Real.sqrt T))
    (hd2 : d2 = d1 - inp.volatility * Real.sqrt T)
    (hK : 0 < inp.strike_price) (hS : 0 < inp.spot_price)
    (hvol : 0 < inp.volatility) (hTpos : 0 < T) :
    (pyCasefold inp.option_type = "call" →
      calculate_pv ncdf today inp
        = .ok (round2 (inp.spot_price * ncdf d1
            - inp.strike_price * Real.exp (-inp.interest_rate * T)
              * ncdf d2)))
    ∧ (pyCasefold inp.option_type = "put" →
      calculate_pv ncdf today inp
        = .ok (round2 (inp.strike_price
            * Real.exp (-inp.interest_rate * T) * ncdf (-d2)
            - inp.spot_price * ncdf (-d1)))) := by
  have hTeq : T = time_T today inp := hT
  subst hd2
  subst hd1
  subst hTeq
  exact ⟨fun h => calculate_pv_call h, fun h => calculate_pv_put h⟩

/-- Witness for C1: an at-the-money one-year call (spot = strike = 100,
vol = 1, rate = 0, expiry 365 days out) is priced by the CALL branch. -/
theorem c1_black76_formula_witness :
    ∃ val, calculate_pv (fun _ => 0) 0
        ⟨365, 100, "CALL", 0, 1, 100⟩ = .ok val :=
  ⟨_, (c1_black76_formula (fun _ => 0) 0 ⟨365, 100, "CALL", 0, 1, 100⟩
      1 _ _ (by unfold round2; norm_num) rfl rfl
      (by norm_num) (by norm_num) (by norm_num) (by norm_num)).1
      (by decide)⟩

/-- **C4.** `priceOption` is a pure function of its declared inputs
(expiration date, strike, option type, rate, volatility, spot, and the
`today` date): two calls agreeing on all of them return the same
output. -/
theorem c4_deterministic (ncdf : ℝ → ℝ) (a b : PVInputs) (ta tb : ℕ)
    (h1 : a.expiration_date = b.expiration_date)
    (h2 : a.strike_price = b.strike_price)
    (h3 : a.option_type = b.option_type)
    (h4 : a.interest_rate = b.interest_rate)
    (h5 : a.volatility = b.volatility)
    (h6 : a.spot_price = b.spot_price)
    (h7 : ta = tb) :
    calculate_pv ncdf ta a = calculate_pv ncdf tb b := by
  cases a
  cases b
  cases h1
  cases h2
  cases h3
  cases h4
  cases h5
  cases h6
  cases h7
  rfl

/-- Witness for C4 at a concrete input. -/
theorem c4_deterministic_witness :
    calculate_pv (fun _ => 0) 0 ⟨365, 100, "CALL", 0, 1, 100⟩
      = calculate_pv (fun _ => 0) 0 ⟨365, 100, "CALL", 0, 1, 100⟩ :=
  c4_deterministic (fun _ => 0) ⟨365, 100, "CALL", 0, 1, 100⟩
    ⟨365, 100, "CALL", 0, 1, 100⟩ 0 0 rfl rfl rfl rfl rfl rfl rfl

/-- **C7.** `priceOption` fails with `UnknownOptionType` exactly when the
option type, lower-cased, is neither "call" nor "put"; in particular it
fails for "STRADDLE" (and succeeds for every casing of CALL / PUT, by
the iff). -/
theorem c7_unknown_option_type :
    (∀ (ncdf : ℝ → ℝ) (today : ℕ) (inp : PVInputs),
        calculate_pv ncdf today inp = .error .unknownOptionType ↔
          (pyCasefold inp.option_type ≠ "call"
            ∧ pyCasefold inp.option_type ≠ "put"))
    ∧ ∀ (ncdf : ℝ → ℝ) (today : ℕ) (inp : PVInputs),
        inp.option_type = "STRADDLE" →
        calculate_pv ncdf today inp = .error .unknownOptionType := by
  constructor
  · intro ncdf today inp
    constructor
    · intro h
      by_cases h1 : pyCasefold inp.option_type = "put"
      · rw [calculate_pv_put h1] at h
        exact Except.noConfusion h
      · by_cases h2 : pyCasefold inp.option_type = "call"
        · rw [calculate_pv_call h2] at h
          exact Except.noConfusion h
        · exact ⟨h2, h1⟩
    · intro ⟨h2, h1⟩
      exact calculate_pv_error h1 h2
  · intro ncdf today inp h
    apply calculate_pv_error <;> rw [h] <;> decide

/-- Witness for C7: "STRADDLE" is rejected, "cAlL" is not. -/
theorem c7_unknown_option_type_witness :
    calculate_pv (fun _ => 0) 0 ⟨365, 100, "STRADDLE", 0, 1, 100⟩
        = .error .unknownOptionType ∧
    ¬(calculate_pv (fun _ => 0) 0 ⟨365, 100, "cAlL", 0, 1, 100⟩
        = .error .unknownOptionType) :=
  ⟨c7_unknown_option_type.2 (fun _ => 0) 0 _ rfl,
   fun h =>
     absurd ((c7_unknown_option_type.1 (fun _ => 0) 0
       ⟨365, 100, "cAlL", 0, 1, 100⟩).mp h).1 (by decide)⟩

/-- **C3.** Put-call parity: when a CALL and a PUT are priced from the
same expiration date, strike, rate, volatility and spot (all positive
where the claim requires it) with the standard normal CDF
(characterised by its symmetry Φ(−x) = 1 − Φ(x)), the two present
values satisfy `callPV − putPV = spot − strike·e^(−rate·T)` to within
an absolute tolerance of 0.01, `T` being the engine's rounded
time-to-expiry. -/
theorem c3_put_call_parity (ncdf : ℝ → ℝ)
    (hsym : ∀ x, ncdf (-x) = 1 - ncdf x)
    (today e : ℕ) (K r v S : ℝ) (otC otP : String)
    (hotC : pyCasefold otC = "call") (hotP : pyCasefold otP = "put")
    (hK : 0 < K) (hS : 0 < S) (hvol : 0 < v)
    (c p : ℝ)
    (hc : calculate_pv ncdf today ⟨e, K, otC, r, v, S⟩ = .ok c)
    (hp : calculate_pv ncdf today ⟨e, K, otP, r, v, S⟩ = .ok p) :
    |c - p - (S - K * Real.exp (-r * get_time_to_expiry e today))| ≤ 0.01
    := by
  rw [calculate_pv_call hotC] at hc
  rw [calculate_pv_put hotP] at hp
  injection hc with hc
  injection hp with hp
  set T : ℝ := get_time_to_expiry e today with hTdef
  set d1 : ℝ := d1_calc today ⟨e, K, otC, r, v, S⟩ with hd1def
  set d2 : ℝ := d2_calc today ⟨e, K, otC, r, v, S⟩ with hd2def
  have hTP : time_T today (⟨e, K, otP, r, v, S⟩ : PVInputs) = T := rfl
  have hTC : time_T today (⟨e, K, otC, r, v, S⟩ : PVInputs) = T := rfl
  have hd1P : d1_calc today (⟨e, K, otP, r, v, S⟩ : PVInputs) = d1 := rfl
  have hd2P : d2_calc today (⟨e, K, otP, r, v, S⟩ : PVInputs) = d2 := rfl
  rw [hTC] at hc
  rw [hTP, hd1P, hd2P] at hp
  set C : ℝ := S * ncdf d1 - K * Real.exp (-r * T) * ncdf d2 with hCdef
  set P : ℝ := K * Real.exp (-r * T) * ncdf (-d2) - S * ncdf (-d1)
    with hPdef
  have hpar : C - P = S - K * Real.exp (-r * T) := by
    rw [hCdef, hPdef, hsym d1, hsym d2]
    ring
  have e1 : |round2 C - C| ≤ 1 / 200 := abs_round2_sub C
  have e2 : |round2 P - P| ≤ 1 / 200 := abs_round2_sub P
  have key : c - p - (S - K * Real.exp (-r * T))
      = (round2 C - C) - (round2 P - P) := by
    rw [← hc, ← hp] at *
    rw [← hpar]
    ring
  rw [key]
  calc |(round2 C - C) - (round2 P - P)|
      ≤ |round2 C - C| + |round2 P - P| := abs_sub _ _
    _ ≤ 1 / 200 + 1 / 200 := add_le_add e1 e2
    _ ≤ 0.01 := by norm_num

/-- Witness for C3 with the symmetric test CDF `Φ = 1/2`. -/
theorem c3_put_call_parity_witness :
    ∃ c p, calculate_pv (fun _ => 1 / 2) 0 ⟨365, 100, "CALL", 0, 1, 100⟩
        = .ok c ∧
      calculate_pv (fun _ => 1 / 2) 0 ⟨365, 100, "PUT", 0, 1, 100⟩
        = .ok p ∧
      |c - p - (100 - 100 * Real.exp (-0 * get_time_to_expiry 365 0))|
        ≤ 0.01 :=
  ⟨_, _, rfl, rfl,
    c3_put_call_parity (fun _ => 1 / 2) (fun x => by norm_num)
      0 365 100 0 1 100 "CALL" "PUT" (by decide) (by decide)
      (by norm_num) (by norm_num) (by norm_num) _ _ rfl rfl⟩

end Black76

namespace Black76

/-! ### Batch lemmas -/

theorem except_bind_ok {ε α β : Type} (a : α) (g : α → Except ε β) :
    (Except.ok a >>= g : Except ε β) = g a :=
  rfl

theorem calculate_pv_isOk {ncdf : ℝ → ℝ} {today : ℕ} {inp : PVInputs}
    (h : parse_option_type inp.option_type ≠ none) :
    ∃ val, calculate_pv ncdf today inp = .ok val := by
  unfold calculate_pv
  rcases hk : parse_option_type inp.option_type with _ | k
  · exact absurd hk h
  · cases k <;> simp only [hk] <;> exact ⟨_, rfl⟩

theorem update_pv_ok {ncdf : ℝ → ℝ} {today : ℕ} {o : OptionPV}
    {r v s val : ℝ}
    (h : calculate_pv ncdf today
        ⟨o.expiration_date, o.strike_price, o.option_type, r, v, s⟩
      = .ok val) :
    update_pv_for_single_option ncdf today o r v s
      = .ok { o with
              volatility := v
              interest_rate := r
              spot_price := s
              pv := val } := by
  unfold update_pv_for_single_option
  rw [h]

/-- **C8.** When pricing succeeds for every record, the batch valuation
returns one result per input record, in input order: the i-th output
copies the i-th record's public fields, attaches the three market
parameters, and carries the present value the engine computes from that
record's expiration date, strike and option type. -/
theorem c8_batch_shape (ncdf : ℝ → ℝ) (today : ℕ)
    (records : List OptionRecord) (r v s : ℝ)
    (hok : ∀ o ∈ records, parse_option_type o.option_type ≠ none) :
    ∃ out, generate_pv_for_options ncdf today records r v s = .ok out ∧
      out.length = records.length ∧
      ∀ i, i < records.length →
        ∃ rec pvVal, records[i]? = some rec ∧
          calculate_pv ncdf today
            ⟨rec.expiration_date, rec.strike_price, rec.option_type,
              r, v, s⟩ = .ok pvVal ∧
          out[i]? = some
            { id := rec.id, commodity := rec.commodity,
              expires_on := rec.expires_on,
              strike_price := rec.strike_price,
              option_type := rec.option_type,
              unit_of_measure := rec.unit_of_measure,
              expiration_date := rec.expiration_date,
              interest_rate := r, volatility := v, spot_price := s,
              pv := pvVal } := by
  induction records with
  | nil =>
      exact ⟨[], rfl, rfl, fun i hi => absurd hi (by simp)⟩
  | cons o os ih =>
      obtain ⟨out, hout, hlen, hidx⟩ :=
        ih (fun o' ho' => hok o' (List.mem_cons_of_mem _ ho'))
      obtain ⟨val, hval⟩ := @calculate_pv_isOk ncdf today
        ⟨o.expiration_date, o.strike_price, o.option_type, r, v, s⟩
        (hok o (List.mem_cons_self _ _))
      have hu : update_pv_for_single_option ncdf today (from_orm o) r v s
          = .ok { from_orm o with
                  volatility := v
                  interest_rate := r
                  spot_price := s
                  pv := val } :=
        update_pv_ok hval
      refine ⟨({ from_orm o with
                 volatility := v
                 interest_rate := r
                 spot_price := s
                 pv := val } : OptionPV) :: out, ?_, ?_, ?_⟩
      · unfold generate_pv_for_options at hout ⊢
        simp only [List.map_cons, List.mapM_cons]
        rw [hu, except_bind_ok, hout, except_bind_ok]
        rfl
      · simpa using hlen
      · intro i hi
        cases i with
        | zero => exact ⟨o, val, by simp, hval, by simp [from_orm]⟩
        | succ n =>
            have hn : n < os.length := by simpa using hi
            obtain ⟨rec, pv2, h1, h2, h3⟩ := hidx n hn
            exact ⟨rec, pv2, by simpa using h1, h2, by simpa using h3⟩

/-- Witness for C8: a singleton batch of one CALL record. -/
theorem c8_batch_shape_witness :
    ∃ out, generate_pv_for_options (fun _ => 0) 0
        [⟨"1", "BRN", "Jan24", 100, "CALL", "USD/BBL", 738854⟩] 0 1 100
        = .ok out ∧
      out.length = 1 ∧
      ∀ i, i < 1 →
        ∃ (rec : OptionRecord) (pvVal : ℝ),
          [(⟨"1", "BRN", "Jan24", 100, "CALL", "USD/BBL", 738854⟩ :
              OptionRecord)][i]? = some rec ∧
          calculate_pv (fun _ => 0) 0
            ⟨rec.expiration_date, rec.strike_price, rec.option_type,
              0, 1, 100⟩ = .ok pvVal ∧
          out[i]? = some
            { id := rec.id, commodity := rec.commodity,
              expires_on := rec.expires_on,
              strike_price := rec.strike_price,
              option_type := rec.option_type,
              unit_of_measure := rec.unit_of_measure,
              expiration_date := rec.expiration_date,
              interest_rate := 0, volatility := 1, spot_price := 100,
              pv := pvVal } :=
  c8_batch_shape (fun _ => 0) 0
    [⟨"1", "BRN", "Jan24", 100, "CALL", "USD/BBL", 738854⟩] 0 1 100
    (by intro o ho
        simp only [List.mem_singleton] at ho
        subst ho
        decide)

/-- **C10.** Creation validation accepts a zero strike (it rejects only
strictly negative strikes), while the pricing computation raises no
typed error at strike 0 — the log of `spot/0` is simply evaluated — so
no guard protects the `strike_price = 0` record that validation lets
through: pricing is well-defined only under the unstated precondition
`strike_price > 0`. -/
theorem c10_zero_strike_unguarded :
    (∀ v : CreateRequest,
        (pyUpper v.commodity = "BRN" ∨ pyUpper v.commodity = "HH") →
        (pyUpper v.option_type = "CALL" ∨ pyUpper v.option_type = "PUT") →
        ((∃ e, validate_fields v = .error e) ↔ v.strike_price < 0))
    ∧ ∀ (ncdf : ℝ → ℝ) (today : ℕ) (inp : PVInputs),
        inp.strike_price = 0 →
        (pyCasefold inp.option_type = "call"
          ∨ pyCasefold inp.option_type = "put") →
        ∃ val, calculate_pv ncdf today inp = .ok val := by
  constructor
  · intro v hcom hot
    unfold validate_fields
    rw [if_neg (by rcases hcom with h | h <;> simp [h])]
    rw [if_neg (by rcases hot with h | h <;> simp [h])]
    split_ifs with hlt
    · simp [hlt]
    · simp [hlt]
  · intro ncdf today inp hzero hty
    apply calculate_pv_isOk
    rcases hty with h | h
    · rw [parse_option_type_call h]
      simp
    · rw [parse_option_type_put h]
      simp

/-- Witness for C10: the record with strike 0 passes validation, and the
engine prices a zero-strike CALL without a typed error. -/
theorem c10_zero_strike_unguarded_witness :
    (¬∃ e, validate_fields ⟨"BRN", "Mar24", 0, "CALL", "USD/BBL"⟩
        = .error e) ∧
    ∃ val, calculate_pv (fun _ => 0) 0 ⟨365, 0, "CALL", 0, 1, 100⟩
        = .ok val :=
  ⟨fun h =>
      absurd ((c10_zero_strike_unguarded.1
          ⟨"BRN", "Mar24", 0, "CALL", "USD/BBL"⟩
          (Or.inl rfl) (Or.inl rfl)).mp h)
        (by norm_num),
   c10_zero_strike_unguarded.2 (fun _ => 0) 0
     ⟨365, 0, "CALL", 0, 1, 100⟩ rfl (Or.inl rfl)⟩

end Black76
